import Mathlib

/-!
Verification development for the Wekan reminder service
(`wekan_client.py`, `sns_notifier.py`, `scheduler.py`).

The Python modules are shallowly embedded: network responses are inputs
(a `Resp` value per HTTP call), wall-clock instants are `Int` seconds,
timezone conversion is modelled by an offset function `tz : Int → Int`
giving the zone's UTC offset (in seconds) at a given UTC instant (the
role played by the `pytz` zone `Asia/Jerusalem` in the source), and the
host machine's local offset — which Python's `astimezone` applies to a
naive datetime — is an explicit parameter `hostOff`.
-/

namespace Reminder

/-- Outcome of one HTTP request in the source: a 200 response with a JSON
payload, a non-200 status code (the source checks `status_code != 200`),
or a transport error (`requests.exceptions.RequestException`, which raises). -/
inductive Resp (α : Type) where
  | ok (a : α)
  | httpErr (code : Nat)
  | netErr
deriving Repr

/-- Timezone annotation carried by an ISO-8601 due-date string: a trailing
"Z", an explicit numeric offset (seconds), or none at all (a naive string). -/
inductive TzMark where
  | zulu
  | off (o : Int)
  | naive
deriving Repr, DecidableEq

/-- A parseable ISO-8601 timestamp: the wall-clock seconds written in the
string together with its timezone annotation. -/
structure Stamp where
  wall : Int
  mark : TzMark
deriving Repr, DecidableEq

/-- The `dueAt` string of a card, when present: either a string
`datetime.fromisoformat` rejects (raising, so the card is skipped), or a
parseable timestamp. -/
inductive DueField where
  | malformed
  | stamp (s : Stamp)
deriving Repr, DecidableEq

/-- A card as returned by the Wekan API: identifier, title, description,
optional `dueAt` string (the card-schema fields the pipeline reads). -/
structure RawCard where
  cid : String
  title : String
  description : String
  dueAt : Option DueField
deriving Repr, DecidableEq

/-- A list (column) of a board, as returned by the lists endpoint. -/
structure ListItem where
  lid : String
  title : String
deriving Repr, DecidableEq

/-- A board as returned by the boards endpoint. -/
structure Board where
  bid : String
  title : String
deriving Repr, DecidableEq

/-- A card annotated by `get_cards_from_board` with its board identifier
and its list's identifier and title (`card['boardId']`, `card['listId']`,
`card['listTitle']`). -/
structure AnnCard where
  raw : RawCard
  boardId : String
  listId : String
  listTitle : String
deriving Repr, DecidableEq

/-- The board-API environment of one evaluation: the response to the
boards listing (authentication failures and transport errors both surface
here, since `get_boards` returns `[]` for every failure), the response to
each board's lists endpoint, and the response to each list's cards
endpoint. -/
structure WekanEnv where
  boards : Resp (List Board)
  lists : String → Resp (List ListItem)
  cards : String → String → Resp (List RawCard)

/-- Embeds `WekanClient.get_boards`: the board list on a 200 response,
`[]` on a non-200 status or a transport error. -/
def get_boards (env : WekanEnv) : List Board :=
  match env.boards with
  | .ok bs => bs
  | .httpErr _ => []
  | .netErr => []

/-- Annotates every card of one list, as the loop body of
`get_cards_from_board` does. -/
def annotate (boardId : String) (l : ListItem) (cs : List RawCard) : List AnnCard :=
  cs.map (fun c => { raw := c, boardId := boardId, listId := l.lid, listTitle := l.title })

/-- The per-list loop of `get_cards_from_board`. A 200 response appends
that list's annotated cards; a non-200 status skips the list; a transport
error raises out of the whole `try` block (`none`), discarding everything
accumulated so far. -/
def fetchListsCards (env : WekanEnv) (boardId : String) : List ListItem → Option (List AnnCard)
  | [] => some []
  | l :: rest =>
    match env.cards boardId l.lid with
    | .ok cs => (fetchListsCards env boardId rest).map (fun t => annotate boardId l cs ++ t)
    | .httpErr _ => fetchListsCards env boardId rest
    | .netErr => none

/-- Embeds `WekanClient.get_cards_from_board`: fetch the board's lists
(any failure yields `[]`), then walk the lists fetching cards; the
`except` clause turns a transport error anywhere inside into `[]`. -/
def get_cards_from_board (env : WekanEnv) (boardId : String) : List AnnCard :=
  match env.lists boardId with
  | .ok ls => (fetchListsCards env boardId ls).getD []
  | .httpErr _ => []
  | .netErr => []

/-- UTC instant denoted by a parsed due-date string, per
`datetime.fromisoformat(due_at.replace('Z', '+00:00'))` followed by
`astimezone`: a "Z" string is UTC; a string with an explicit offset `o`
denotes `wall - o`; a naive string is interpreted by `astimezone` in the
HOST machine's local zone, denoting `wall - hostOff`. -/
def parseInstant (hostOff : Int) (s : Stamp) : Int :=
  match s.mark with
  | .zulu => s.wall
  | .off o => s.wall - o
  | .naive => s.wall - hostOff

/-- Local (zone `tz`) wall-clock of the parsed due date after
`due_date_utc.astimezone(local_tz).replace(tzinfo=None)`. -/
def dueLocal (tz : Int → Int) (hostOff : Int) (s : Stamp) : Int :=
  parseInstant hostOff s + tz (parseInstant hostOff s)

/-- Local wall-clock "now": `datetime.now(timezone.utc).astimezone(local_tz)`
stripped of its offset. -/
def nowLocal (tz : Int → Int) (nowUtc : Int) : Int :=
  nowUtc + tz nowUtc

/-- The window test of `get_due_cards`: `now <= due_date <= threshold`
on naive local datetimes, with `threshold = now + timedelta(hours=hours)`. -/
def inWindow (tz : Int → Int) (hostOff nowUtc hours : Int) (s : Stamp) : Bool :=
  decide (nowLocal tz nowUtc ≤ dueLocal tz hostOff s) &&
    decide (dueLocal tz hostOff s ≤ nowLocal tz nowUtc + 3600 * hours)

/-- A card that passed the due filter, annotated by `get_due_cards` with
`card['boardTitle']` and `card['dueAtParsed']` (the parsed naive local
due time). -/
structure DueCard where
  card : AnnCard
  boardTitle : String
  dueAtParsed : Int
deriving Repr, DecidableEq

/-- The per-card body of `get_due_cards`: skip a card with no `dueAt`,
skip a card whose `dueAt` fails to parse, and keep a card inside the
window, annotated. -/
def dueFilter (tz : Int → Int) (hostOff nowUtc hours : Int) (b : Board) (c : AnnCard) :
    Option DueCard :=
  match c.raw.dueAt with
  | none => none
  | some .malformed => none
  | some (.stamp s) =>
    if inWindow tz hostOff nowUtc hours s then
      some { card := c, boardTitle := b.title, dueAtParsed := dueLocal tz hostOff s }
    else none

/-- Embeds `WekanClient.get_due_cards`: walk the boards in listing order,
walk each board's cards in list order, and keep the cards whose parsed
local due time falls in `[now_local, now_local + hours]`. -/
def get_due_cards (tz : Int → Int) (hostOff nowUtc : Int) (env : WekanEnv) (hours : Int) :
    List DueCard :=
  (get_boards env).flatMap (fun b =>
    (get_cards_from_board env b.bid).filterMap (dueFilter tz hostOff nowUtc hours b))

/-- Urgency tag assigned by `format_card_message` from the hours-until-due
value (a float in the source, exact at the thresholds; modelled as ℚ). -/
def urgency (h : ℚ) : String :=
  if h < 0 then "⚠️ OVERDUE"
  else if h < 1/2 then "🚨 URGENT (< 30 min)"
  else if h < 1 then "⏰ SOON (< 1 hour)"
  else "📅 UPCOMING"

/-- Hours until due of one card in `format_card_message`:
`(card['dueAtParsed'] - datetime.now()).total_seconds() / 3600`, with
`nowHost` the host's naive local wall clock in seconds. -/
def hoursUntilDue (nowHost : Int) (c : DueCard) : ℚ :=
  ((c.dueAtParsed - nowHost : Int) : ℚ) / 3600

/-- One card's entry in the digest body (the `card_info` list):
title with urgency tag, board, list, due time, hours until due, and a
description truncated to 100 characters plus an ellipsis when present
(after `.strip()`). `strf` renders a naive datetime as the source's
`strftime('%Y-%m-%d %H:%M:%S')` and `fmt1` renders a float with one
decimal, as `f-string :.1f` does. -/
def cardInfo (strf : Int → String) (fmt1 : ℚ → String) (nowHost : Int)
    (i : Nat) (c : DueCard) : List String :=
  let h := hoursUntilDue nowHost c
  let desc := c.card.raw.description.trim
  [toString i ++ ". " ++ c.card.raw.title ++ " " ++ urgency h,
   "   Board: " ++ c.boardTitle,
   "   List: " ++ c.card.listTitle,
   "   Due: " ++ strf c.dueAtParsed,
   "   Time until due: " ++ fmt1 h ++ " hours"] ++
  (if desc = "" then []
   else ["   Description: " ++ (if 100 < desc.length then desc.take 100 ++ "..." else desc)]) ++
  [""]

/-- A ruler line of fifty equals signs, the source's `"=" * 50`. -/
def ruler : String := String.mk (List.replicate 50 (Char.ofNat 61))

/-- Embeds the body of `SNSNotifier.format_card_message` (the code inside
its `try`): the fixed pair on empty input, otherwise a subject encoding
the count and a structured multi-section body. -/
def format_card_message (strf : Int → String) (fmt1 : ℚ → String) (wekanUrl : String)
    (nowHost : Int) (due_cards : List DueCard) : String × String :=
  if due_cards.isEmpty then ("No Due Cards", "No cards are currently due.")
  else
    let n := due_cards.length
    let subject := "🔔 Wekan Alert: " ++ toString n ++ " Card" ++
      (if 1 < n then "s" else "") ++ " Due Soon"
    let header := ["Wekan Card Reminders - " ++ strf nowHost,
      "Total cards due within 1 hour: " ++ toString n, "",
      "📋 Due Cards Details:", ruler]
    let body := (due_cards.enum).flatMap (fun p => cardInfo strf fmt1 nowHost (p.1 + 1) p.2)
    let footer := [ruler, "Please check your Wekan board: " ++ wekanUrl, "",
      "This is an automated reminder from your Wekan Reminder Service."]
    (subject, String.intercalate "\n" (header ++ body ++ footer))

/-- The `except` clause of `format_card_message`: if anything inside the
`try` raises (possible at runtime on ill-typed card fields), the fallback
subject/body pair describing the failure is returned; otherwise the
computed pair. -/
def format_guard (body : Except String (String × String)) : String × String :=
  match body with
  | .ok p => p
  | .error e => ("Wekan Alert - Formatting Error", "Error formatting reminder message: " ++ e)

/-- Failure classes of the publish call in `send_notification`:
`botocore` `ClientError` (code and message), `BotoCoreError`, and any
other exception. -/
inductive PubErr where
  | clientErr (code msg : String)
  | botoErr (msg : String)
  | otherErr (msg : String)
deriving Repr, DecidableEq

/-- Truthiness of `response.get('MessageId')`: the key must be present
and nonempty. -/
def hasMessageId : Option String → Bool
  | none => false
  | some s => !s.isEmpty

/-- Embeds `SNSNotifier.send_notification`. `pub` is the SNS environment:
given the subject and message of the one `publish` call, it either
acknowledges (with an optional `MessageId`) or fails. `nPub` counts
`publish` invocations performed. Empty input returns `true` with no call;
otherwise exactly one call is made, `true` iff the acknowledgment carries
a truthy `MessageId`, and each failure class is caught and yields
`false`. -/
def send_notification (strf : Int → String) (fmt1 : ℚ → String) (wekanUrl : String)
    (nowHost : Int) (due_cards : List DueCard)
    (pub : String → String → Except PubErr (Option String)) : Bool × Nat :=
  if due_cards.isEmpty then (true, 0)
  else
    let fm := format_card_message strf fmt1 wekanUrl nowHost due_cards
    match pub fm.1 fm.2 with
    | .ok mid => (hasMessageId mid, 1)
    | .error _ => (false, 1)

/-- State of `ReminderScheduler`: the APScheduler job table (job ids),
the `is_running` flag, the number of synchronous ticks
(`check_and_send_reminders` runs) executed so far, and the number of
warnings logged. -/
structure SchedState where
  jobs : List String
  is_running : Bool
  ticks : Nat
  warnings : Nat
deriving Repr, DecidableEq

/-- The scheduler's initial state (`__init__`): no jobs, not running. -/
def initState : SchedState :=
  { jobs := [], is_running := false, ticks := 0, warnings := 0 }

/-- APScheduler `add_job` with `replace_existing=True`: a job with the
same identifier is replaced (the id set is unchanged), otherwise the id
is appended. -/
def add_job (s : SchedState) (jobId : String) : SchedState :=
  if jobId ∈ s.jobs then s else { s with jobs := s.jobs ++ [jobId] }

/-- Embeds `ReminderScheduler.start`: a warning-only no-op when already
running; otherwise registers the single recurring job with id
`reminder_check`, transitions to running, and executes one synchronous
tick before returning. -/
def start (s : SchedState) : SchedState :=
  if s.is_running then { s with warnings := s.warnings + 1 }
  else
    let s1 := add_job s "reminder_check"
    { s1 with is_running := true, ticks := s1.ticks + 1 }

/-- Embeds `ReminderScheduler.stop`: a warning-only no-op when not
running; otherwise shuts the timer down. -/
def stop (s : SchedState) : SchedState :=
  if s.is_running then { s with is_running := false }
  else { s with warnings := s.warnings + 1 }

/-- Externally invokable lifecycle operations on the scheduler. -/
inductive SchedOp where
  | start
  | stop
deriving Repr, DecidableEq

/-- Applies one lifecycle operation. -/
def applyOp (s : SchedState) : SchedOp → SchedState
  | .start => start s
  | .stop => stop s

/-- Applies a sequence of lifecycle operations from left to right. -/
def applyOps (ops : List SchedOp) (s : SchedState) : SchedState :=
  ops.foldl applyOp s

/-- One per-card summary in the `due_cards` field of a manual-check
result (`run_manual_check`'s loop over `due_cards`). -/
structure CardSummary where
  title : String
  board : Option String
  listName : Option String
  due_at : Option Int
  hours_until_due : Option ℚ
deriving Repr, DecidableEq

/-- Models the lookup `card.get('hoursUntilDue')` on a due card. The
pipeline sets only `boardId`, `listId`, `listTitle` (in
`get_cards_from_board`) and `boardTitle`, `dueAtParsed` (in
`get_due_cards`), and the upstream card schema has no `hoursUntilDue`
key, so the lookup always returns `None`. -/
def getHoursUntilDueKey (_ : DueCard) : Option ℚ := none

/-- Builds one card summary, as the loop body of `run_manual_check`
does. A due card always carries `dueAtParsed` (set when it passed the
filter), so `due_at` is always populated. -/
def summarize (c : DueCard) : CardSummary :=
  { title := c.card.raw.title, board := some c.boardTitle,
    listName := some c.card.listTitle, due_at := some c.dueAtParsed,
    hours_until_due := getHoursUntilDueKey c }

/-- The dictionary returned by `run_manual_check`. The fields absent
from the `except`-branch dictionary are `Option`s (`none` = key
missing). -/
structure RunResult where
  timestamp : Int
  due_cards_count : Option Nat
  due_cards : Option (List CardSummary)
  notification_sent : Option Bool
  success : Bool
  error : Option String
  execution_time_seconds : Option Int
deriving Repr, DecidableEq

/-- The `except`-branch dictionary of `run_manual_check`: timestamp,
`success: False` and the error message only. -/
def failResult (t : Int) (e : String) : RunResult :=
  { timestamp := t, due_cards_count := none, due_cards := none,
    notification_sent := none, success := false, error := some e,
    execution_time_seconds := none }

/-- Embeds `ReminderScheduler.run_manual_check`. `t0` and `t1` are the
two `datetime.now()` readings; `due` is the behavior of
`self.wekan_client.get_due_cards` (which may raise when the client is a
test double, though the real client catches internally); `send` is the
behavior of `self.sns_notifier.send_notification`. Any exception from a
collaborator is caught by the outer `try` and becomes the failure
dictionary — the function itself never raises. The second component
counts how many times `send_notification` was invoked. -/
def run_manual_check (t0 t1 : Int) (due : Except String (List DueCard))
    (send : List DueCard → Except String Bool) : RunResult × Nat :=
  match due with
  | .error e => (failResult t1 e, 0)
  | .ok cards =>
    let base : RunResult :=
      { timestamp := t0, due_cards_count := some cards.length,
        due_cards := some (cards.map summarize), notification_sent := some false,
        success := true, error := none, execution_time_seconds := some (t1 - t0) }
    if cards.isEmpty then (base, 0)
    else
      match send cards with
      | .error e => (failResult t1 e, 1)
      | .ok b =>
        let r : RunResult :=
          { base with
            notification_sent := some b
            success := b
            error := (if b then none else some "Failed to send SNS notification") }
        (r, 1)

/-- The composed manual check against the real board client:
`run_manual_check` calling the real `get_due_cards(hours_ahead=1)`,
which catches every upstream failure internally and so never raises
into the scheduler. -/
def run_manual_check_pipeline (tz : Int → Int) (hostOff nowUtc : Int) (env : WekanEnv)
    (t0 t1 : Int) (send : List DueCard → Except String Bool) : RunResult × Nat :=
  run_manual_check t0 t1 (.ok (get_due_cards tz hostOff nowUtc env 1)) send

/-- The invariant the scheduler's job table satisfies: the table is empty
or holds exactly the single `reminder_check` job. -/
def jobsOk (s : SchedState) : Prop :=
  s.jobs = [] ∨ s.jobs = ["reminder_check"]

lemma jobsOk_applyOp (s : SchedState) (op : SchedOp) (h : jobsOk s) : jobsOk (applyOp s op) := by
  cases op with
  | start =>
    unfold applyOp start add_job
    by_cases hr : s.is_running
    · simpa [hr] using h
    · rcases h with h | h
      · simp [hr, h, jobsOk]
      · simp [hr, h, jobsOk]
  | stop =>
    unfold applyOp stop
    by_cases hr : s.is_running <;> simpa [hr] using h

lemma jobsOk_applyOps (ops : List SchedOp) (s : SchedState) (h : jobsOk s) :
    jobsOk (applyOps ops s) := by
  induction ops generalizing s with
  | nil => simpa [applyOps] using h
  | cons op rest ih =>
    have h1 := jobsOk_applyOp s op h
    simpa [applyOps, List.foldl_cons] using ih (applyOp s op) h1

lemma jobsOk_count_le_one (s : SchedState) (h : jobsOk s) :
    s.jobs.count "reminder_check" ≤ 1 := by
  rcases h with h | h <;> simp [h]

/-- C4 counterexample: the claim puts the boundary values in the stricter
bucket, but the source's strict `<` comparisons put them in the laxer
one: at exactly 0.5 hours the tag is "SOON", not "URGENT", and at
exactly 1.0 hours it is "UPCOMING", not "SOON". -/
theorem urgency_boundary_cex :
    urgency (1/2) = "⏰ SOON (< 1 hour)" ∧
    urgency (1/2) ≠ "🚨 URGENT (< 30 min)" ∧
    urgency 1 = "📅 UPCOMING" ∧
    urgency 1 ≠ "⏰ SOON (< 1 hour)" := by
  refine ⟨?_, ?_, ?_, ?_⟩ <;> unfold urgency <;> norm_num <;> decide

/-- C4 (amended): the urgency tag is a function of hoursUntilDue alone;
negative values give OVERDUE, values in [0, 0.5) give URGENT, values in
[0.5, 1) give SOON, and values ≥ 1 give UPCOMING — at exactly 0.5 and
1.0 the card belongs to the higher (laxer) bucket. -/
theorem urgency_buckets (h : ℚ) :
    (h < 0 → urgency h = "⚠️ OVERDUE") ∧
    (0 ≤ h → h < 1/2 → urgency h = "🚨 URGENT (< 30 min)") ∧
    (1/2 ≤ h → h < 1 → urgency h = "⏰ SOON (< 1 hour)") ∧
    (1 ≤ h → urgency h = "📅 UPCOMING") := by
  unfold urgency
  refine ⟨fun h0 => ?_, fun h0 h1 => ?_, fun h0 h1 => ?_, fun h0 => ?_⟩
  · rw [if_pos h0]
  · rw [if_neg (by linarith), if_pos h1]
  · rw [if_neg (by linarith), if_neg (by linarith), if_pos h1]
  · rw [if_neg (by linarith), if_neg (by linarith), if_neg (by linarith)]

/-- Concrete evaluation of the amended urgency buckets at one point of
each bucket. -/
theorem urgency_buckets_witness :
    urgency (-1) = "⚠️ OVERDUE" ∧
    urgency (1/4) = "🚨 URGENT (< 30 min)" ∧
    urgency (3/4) = "⏰ SOON (< 1 hour)" ∧
    urgency 2 = "📅 UPCOMING" :=
  ⟨(urgency_buckets (-1)).1 (by norm_num),
   (urgency_buckets (1/4)).2.1 (by norm_num) (by norm_num),
   (urgency_buckets (3/4)).2.2.1 (by norm_num) (by norm_num),
   (urgency_buckets 2).2.2.2 (by norm_num)⟩

/-- C7: formatting is a pure step (the embedding gives it no network
capability, matching the absence of any publish call in its body): the
empty card list yields the fixed "no cards due" subject/body pair, and
the `except` clause turns any internal formatting error into the
fallback pair describing the failure, so the operation never raises. -/
theorem format_card_message_empty_and_fallback :
    (∀ (strf : Int → String) (fmt1 : ℚ → String) (url : String) (nowHost : Int),
      format_card_message strf fmt1 url nowHost [] =
        ("No Due Cards", "No cards are currently due.")) ∧
    (∀ e : String, format_guard (.error e) =
      ("Wekan Alert - Formatting Error", "Error formatting reminder message: " ++ e)) ∧
    (∀ p : String × String, format_guard (.ok p) = p) :=
  ⟨fun _ _ _ _ => rfl, fun _ => rfl, fun _ => rfl⟩

/-- C5: `send_notification` on the empty list returns true with zero
publish calls; on a non-empty list it performs exactly one publish call,
returns true iff the acknowledgment carries a (truthy) MessageId, and
every publish failure class yields false (the embedding is total, so no
failure propagates as a raised exception). -/
theorem send_notification_spec (strf : Int → String) (fmt1 : ℚ → String) (url : String)
    (nowHost : Int) (due_cards : List DueCard)
    (pub : String → String → Except PubErr (Option String)) :
    (due_cards = [] → send_notification strf fmt1 url nowHost due_cards pub = (true, 0)) ∧
    (due_cards ≠ [] →
      (send_notification strf fmt1 url nowHost due_cards pub).2 = 1 ∧
      ((send_notification strf fmt1 url nowHost due_cards pub).1 = true ↔
        ∃ mid, pub (format_card_message strf fmt1 url nowHost due_cards).1
                   (format_card_message strf fmt1 url nowHost due_cards).2 = .ok mid ∧
               hasMessageId mid = true) ∧
      (∀ er, pub (format_card_message strf fmt1 url nowHost due_cards).1
                 (format_card_message strf fmt1 url nowHost due_cards).2 = .error er →
        (send_notification strf fmt1 url nowHost due_cards pub).1 = false)) := by
  constructor
  · rintro rfl; rfl
  · intro hc
    obtain ⟨a, t, rfl⟩ : ∃ a t, due_cards = a :: t := by
      cases due_cards with
      | nil => exact absurd rfl hc
      | cons a t => exact ⟨a, t, rfl⟩
    unfold send_notification
    cases hp : pub (format_card_message strf fmt1 url nowHost (a :: t)).1
        (format_card_message strf fmt1 url nowHost (a :: t)).2 with
    | ok mid => simp [hp]
    | error er => simp [hp]

/-- Sample annotated card used to instantiate witness statements. -/
def sampleCard : DueCard :=
  { card := { raw := { cid := "c1", title := "Task", description := "",
                       dueAt := some (.stamp ⟨0, .zulu⟩) },
              boardId := "b1", listId := "l1", listTitle := "Doing" },
    boardTitle := "Work", dueAtParsed := 0 }

/-- Concrete instantiation of the send_notification contract: empty
input is a no-op success, and one card with an acknowledged publish
performs exactly one call. -/
theorem send_notification_spec_witness :
    send_notification (fun _ => "") (fun _ => "") "" 0 []
      (fun _ _ => .ok (some "m1")) = (true, 0) ∧
    (send_notification (fun _ => "") (fun _ => "") "" 0 [sampleCard]
      (fun _ _ => .ok (some "m1"))).2 = 1 :=
  ⟨(send_notification_spec (fun _ => "") (fun _ => "") "" 0 []
      (fun _ _ => .ok (some "m1"))).1 rfl,
   ((send_notification_spec (fun _ => "") (fun _ => "") "" 0 [sampleCard]
      (fun _ _ => .ok (some "m1"))).2 (by simp)).1⟩

/-- C2: the due/not-due classification used by `get_due_cards` depends
only on the UTC instant a zone-carrying due string denotes: a string
with a trailing "Z" (the form the upstream API emits; assumed UTC) and a
string with any explicit offset denoting the same instant classify
identically, under any two host-machine timezones — so the window test
in the fixed named zone is independent of the reported offset and of the
host's local zone. -/
theorem inWindow_offset_host_independent (tz : Int → Int) (nowUtc hours inst o h1 h2 : Int) :
    inWindow tz h1 nowUtc hours ⟨inst, .zulu⟩ =
      inWindow tz h2 nowUtc hours ⟨inst + o, .off o⟩ ∧
    dueLocal tz h1 ⟨inst, .zulu⟩ = dueLocal tz h2 ⟨inst + o, .off o⟩ := by
  constructor <;> simp [inWindow, dueLocal, parseInstant]

/-- C8: starting from the initial scheduler state, the first `start`
registers exactly the single `reminder_check` job, transitions to
running, and runs one synchronous tick; a second `start` only increments
the warning count; any not-running state satisfying the job-table
invariant restarts with exactly one `reminder_check` registration and
one extra tick; and across every sequence of start/stop operations at
most one `reminder_check` job is ever registered. -/
theorem scheduler_single_job_spec :
    (start initState).jobs = ["reminder_check"] ∧
    (start initState).is_running = true ∧
    (start initState).ticks = 1 ∧
    start (start initState) =
      { start initState with warnings := (start initState).warnings + 1 } ∧
    (∀ s : SchedState, s.is_running = false → jobsOk s →
      (start s).jobs.count "reminder_check" = 1 ∧ (start s).ticks = s.ticks + 1) ∧
    (∀ ops : List SchedOp, (applyOps ops initState).jobs.count "reminder_check" ≤ 1) := by
  refine ⟨rfl, rfl, rfl, rfl, ?_, ?_⟩
  · intro s hr hj
    unfold start add_job
    rcases hj with h | h
    · simp [hr, h]
    · simp [hr, h]
  · intro ops
    exact jobsOk_count_le_one _ (jobsOk_applyOps ops initState (Or.inl rfl))

/-- Concrete instantiation of the restart clause: a stopped state that
still holds the `reminder_check` registration restarts with exactly one
job and one more tick. -/
theorem scheduler_single_job_spec_witness :
    (start { jobs := ["reminder_check"], is_running := false,
             ticks := 5, warnings := 0 : SchedState }).jobs.count "reminder_check" = 1 ∧
    (start { jobs := ["reminder_check"], is_running := false,
             ticks := 5, warnings := 0 : SchedState }).ticks = 6 :=
  scheduler_single_job_spec.2.2.2.2.1
    { jobs := ["reminder_check"], is_running := false, ticks := 5, warnings := 0 }
    rfl (Or.inr rfl)

lemma inWindow_eq_true_iff (tz : Int → Int) (hostOff nowUtc hours : Int) (s : Stamp) :
    inWindow tz hostOff nowUtc hours s = true ↔
      nowLocal tz nowUtc ≤ dueLocal tz hostOff s ∧
      dueLocal tz hostOff s ≤ nowLocal tz nowUtc + 3600 * hours := by
  simp [inWindow]

lemma dueFilter_eq_some_iff (tz : Int → Int) (hostOff nowUtc hours : Int) (b : Board)
    (c : AnnCard) (dc : DueCard) :
    dueFilter tz hostOff nowUtc hours b c = some dc ↔
      ∃ s : Stamp, c.raw.dueAt = some (.stamp s) ∧
        nowLocal tz nowUtc ≤ dueLocal tz hostOff s ∧
        dueLocal tz hostOff s ≤ nowLocal tz nowUtc + 3600 * hours ∧
        dc = { card := c, boardTitle := b.title, dueAtParsed := dueLocal tz hostOff s } := by
  unfold dueFilter
  rcases hd : c.raw.dueAt with _ | f
  · simp
  · cases f with
    | malformed => simp
    | stamp s =>
      dsimp only
      by_cases hw : inWindow tz hostOff nowUtc hours s = true
      · rw [if_pos hw]
        rw [inWindow_eq_true_iff] at hw
        simp only [Option.some_inj, DueField.stamp.injEq]
        constructor
        · rintro rfl
          exact ⟨s, rfl, hw.1, hw.2, rfl⟩
        · rintro ⟨s', hs', _, _, rfl⟩
          cases hs'
          rfl
      · rw [if_neg hw]
        rw [inWindow_eq_true_iff] at hw
        push_neg at hw
        constructor
        · exact fun h => Option.noConfusion h
        · rintro ⟨s', hs', hlo, hhi, rfl⟩
          cases hs'
          exact absurd hhi (by simpa using hw hlo)

/-- C1: membership in the result of `get_due_cards` is characterized
exactly: a returned card is a card of some fetched board whose `dueAt`
is present and parseable and whose parsed local due time `d` satisfies
`now_local ≤ d ≤ now_local + lookaheadHours`, with both bounds
inclusive; consequently cards with no due timestamp, cards whose due
string fails to parse, and cards outside the window are excluded, and
cards due exactly at `now_local` or exactly at the threshold are
included. -/
theorem get_due_cards_mem_iff (tz : Int → Int) (hostOff nowUtc : Int) (env : WekanEnv)
    (hours : Int) (dc : DueCard) :
    dc ∈ get_due_cards tz hostOff nowUtc env hours ↔
      ∃ b ∈ get_boards env, ∃ c ∈ get_cards_from_board env b.bid, ∃ s : Stamp,
        c.raw.dueAt = some (.stamp s) ∧
        nowLocal tz nowUtc ≤ dueLocal tz hostOff s ∧
        dueLocal tz hostOff s ≤ nowLocal tz nowUtc + 3600 * hours ∧
        dc = { card := c, boardTitle := b.title, dueAtParsed := dueLocal tz hostOff s } := by
  unfold get_due_cards
  simp only [List.mem_flatMap, List.mem_filterMap, dueFilter_eq_some_iff]

/-- Contribution of one list of a board to `get_cards_from_board` when no
transport error occurs: its annotated cards on a 200 response, nothing
on a non-200 status. -/
def listContrib (env : WekanEnv) (boardId : String) (l : ListItem) : List AnnCard :=
  match env.cards boardId l.lid with
  | .ok cs => annotate boardId l cs
  | .httpErr _ => []
  | .netErr => []

lemma fetchListsCards_eq_none (env : WekanEnv) (boardId : String) (ls : List ListItem)
    (l : ListItem) (hl : l ∈ ls) (h : env.cards boardId l.lid = .netErr) :
    fetchListsCards env boardId ls = none := by
  induction ls with
  | nil => cases hl
  | cons a rest ih =>
    rcases List.mem_cons.mp hl with rfl | hmem
    · unfold fetchListsCards
      rw [h]
    · unfold fetchListsCards
      cases env.cards boardId a.lid with
      | ok cs => rw [ih hmem]; rfl
      | httpErr code => exact ih hmem
      | netErr => rfl

lemma fetchListsCards_eq_some (env : WekanEnv) (boardId : String) (ls : List ListItem)
    (h : ∀ l ∈ ls, env.cards boardId l.lid ≠ .netErr) :
    fetchListsCards env boardId ls = some (ls.flatMap (listContrib env boardId)) := by
  induction ls with
  | nil => rfl
  | cons a rest ih =>
    have ha := h a (List.mem_cons_self a rest)
    have hrest := ih (fun l hl => h l (List.mem_cons_of_mem a hl))
    unfold fetchListsCards
    cases hc : env.cards boardId a.lid with
    | ok cs => rw [hrest]; simp [List.flatMap_cons, listContrib, hc]
    | httpErr code => rw [hrest]; simp [List.flatMap_cons, listContrib, hc]
    | netErr => exact absurd hc ha

/-- C6 counterexample: a board with two lists whose first list's cards
fetch succeeds with one card and whose second list's cards fetch fails
with a transport error. The claim requires the first list's card to
still be returned, but the exception aborts the whole call and the board
yields the empty sequence. -/
def cexEnv : WekanEnv :=
  { boards := .ok [⟨"b1", "Board One"⟩],
    lists := fun bid => if bid = "b1" then .ok [⟨"l1", "List One"⟩, ⟨"l2", "List Two"⟩]
             else .netErr,
    cards := fun _ lid =>
      if lid = "l1" then
        .ok [{ cid := "c1", title := "Card One", description := "", dueAt := none }]
      else .netErr }

/-- C6 counterexample: with one list returning a card and a sibling
list's cards fetch failing at the transport level, `get_cards_from_board`
returns the empty sequence — the surviving list's card is dropped,
contradicting the claim that only the failing list is skipped. -/
theorem get_cards_from_board_cex :
    cexEnv.lists "b1" = .ok [⟨"l1", "List One"⟩, ⟨"l2", "List Two"⟩] ∧
    cexEnv.cards "b1" "l1" =
      .ok [{ cid := "c1", title := "Card One", description := "", dueAt := none }] ∧
    cexEnv.cards "b1" "l2" = .netErr ∧
    get_cards_from_board cexEnv "b1" = [] := by
  refine ⟨rfl, rfl, rfl, ?_⟩
  rfl

/-- C6 (amended): a non-success HTTP status fetching a single list's
cards skips only that list — the other lists' cards are still returned,
each annotated with its list's identifier and title and the board
identifier; but a transport error fetching any single list's cards, like
any failure fetching the board's list collection, makes the whole call
return the empty sequence for that board. -/
theorem get_cards_from_board_spec (env : WekanEnv) (boardId : String) :
    (env.lists boardId = .netErr → get_cards_from_board env boardId = []) ∧
    (∀ code, env.lists boardId = .httpErr code → get_cards_from_board env boardId = []) ∧
    (∀ ls, env.lists boardId = .ok ls →
      ((∃ l ∈ ls, env.cards boardId l.lid = .netErr) →
        get_cards_from_board env boardId = []) ∧
      ((∀ l ∈ ls, env.cards boardId l.lid ≠ .netErr) →
        get_cards_from_board env boardId = ls.flatMap (listContrib env boardId))) := by
  refine ⟨?_, ?_, ?_⟩
  · intro h; unfold get_cards_from_board; rw [h]
  · intro code h; unfold get_cards_from_board; rw [h]
  · intro ls hls
    constructor
    · rintro ⟨l, hl, hne⟩
      unfold get_cards_from_board
      rw [hls]
      dsimp only
      rw [fetchListsCards_eq_none env boardId ls l hl hne]
      rfl
    · intro hall
      unfold get_cards_from_board
      rw [hls]
      dsimp only
      rw [fetchListsCards_eq_some env boardId ls hall]
      rfl

/-- Concrete instantiation of the amended contract: a board whose lists
fetch fails yields nothing, and the counterexample environment's
transport failure on the second list empties the whole board. -/
theorem get_cards_from_board_spec_witness :
    get_cards_from_board cexEnv "missing" = [] ∧
    get_cards_from_board cexEnv "b1" = [] :=
  ⟨(get_cards_from_board_spec cexEnv "missing").1 rfl,
   ((get_cards_from_board_spec cexEnv "b1").2.2
      [⟨"l1", "List One"⟩, ⟨"l2", "List Two"⟩] rfl).1
     ⟨⟨"l2", "List Two"⟩, by simp, rfl⟩⟩

/-- An environment whose board listing is unreachable (a transport
error): the upstream failure the claim about `run_manual_check`
describes. -/
def unreachableEnv : WekanEnv :=
  { boards := .netErr, lists := fun _ => .netErr, cards := fun _ _ => .netErr }

/-- C3 counterexample: with the board API unreachable, `get_due_cards`
swallows the failure and returns the empty list, so `run_manual_check`
reports `success = true` with NO error field and zero due cards — not
the `success = false` with a populated error that the claim requires. -/
theorem run_manual_check_board_failure_cex :
    unreachableEnv.boards = .netErr ∧
    (run_manual_check_pipeline (fun _ => 7200) 0 0 unreachableEnv 0 0
        (fun _ => .ok true)).1.success = true ∧
    (run_manual_check_pipeline (fun _ => 7200) 0 0 unreachableEnv 0 0
        (fun _ => .ok true)).1.error = none ∧
    (run_manual_check_pipeline (fun _ => 7200) 0 0 unreachableEnv 0 0
        (fun _ => .ok true)).1.due_cards_count = some 0 :=
  ⟨rfl, rfl, rfl, rfl⟩

lemma get_due_cards_of_boards_netErr (tz : Int → Int) (hostOff nowUtc hours : Int)
    (env : WekanEnv) (h : env.boards = .netErr) :
    get_due_cards tz hostOff nowUtc env hours = [] := by
  unfold get_due_cards get_boards
  rw [h]
  rfl

lemma rmc_error (t0 t1 : Int) (e : String) (send : List DueCard → Except String Bool) :
    run_manual_check t0 t1 (.error e) send = (failResult t1 e, 0) := rfl

lemma rmc_empty (t0 t1 : Int) (send : List DueCard → Except String Bool) :
    run_manual_check t0 t1 (.ok []) send =
      ({ timestamp := t0, due_cards_count := some 0, due_cards := some [],
         notification_sent := some false, success := true, error := none,
         execution_time_seconds := some (t1 - t0) }, 0) := rfl

lemma rmc_send_error (t0 t1 : Int) (a : DueCard) (t : List DueCard) (e : String)
    (send : List DueCard → Except String Bool) (hs : send (a :: t) = .error e) :
    run_manual_check t0 t1 (.ok (a :: t)) send = (failResult t1 e, 1) := by
  unfold run_manual_check
  simp [hs]

lemma rmc_send_ok (t0 t1 : Int) (a : DueCard) (t : List DueCard) (b : Bool)
    (send : List DueCard → Except String Bool) (hs : send (a :: t) = .ok b) :
    run_manual_check t0 t1 (.ok (a :: t)) send =
      ({ timestamp := t0, due_cards_count := some (a :: t).length,
         due_cards := some ((a :: t).map summarize), notification_sent := some b,
         success := b,
         error := (if b then none else some "Failed to send SNS notification"),
         execution_time_seconds := some (t1 - t0) }, 1) := by
  unfold run_manual_check
  simp [hs]

/-- C3 (amended): when the board fetch fails (board API unreachable),
the board client degrades to an empty due-card list, so
`run_manual_check` returns `success = true` with `due_cards_count = 0`
and no error; when a collaborator raises — the notify step, or a
due-card fetch behaving like a raising test double — the outer handler
returns `success = false` with the error message; and the function
(total in this embedding, matching the outermost catch-all) never raises
for any collaborator behavior. -/
theorem run_manual_check_failure_spec (tz : Int → Int) (hostOff nowUtc t0 t1 : Int)
    (env : WekanEnv) (send : List DueCard → Except String Bool) :
    (env.boards = .netErr →
      (run_manual_check_pipeline tz hostOff nowUtc env t0 t1 send).1.success = true ∧
      (run_manual_check_pipeline tz hostOff nowUtc env t0 t1 send).1.error = none ∧
      (run_manual_check_pipeline tz hostOff nowUtc env t0 t1 send).1.due_cards_count =
        some 0) ∧
    (∀ (e : String) (cards : List DueCard), cards ≠ [] →
      (run_manual_check t0 t1 (.ok cards) (fun _ => Except.error e)).1.success = false ∧
      (run_manual_check t0 t1 (.ok cards) (fun _ => Except.error e)).1.error = some e) ∧
    (∀ e : String,
      (run_manual_check t0 t1 (.error e) send).1.success = false ∧
      (run_manual_check t0 t1 (.error e) send).1.error = some e) := by
  refine ⟨?_, ?_, ?_⟩
  · intro h
    unfold run_manual_check_pipeline
    rw [get_due_cards_of_boards_netErr tz hostOff nowUtc 1 env h]
    exact ⟨rfl, rfl, rfl⟩
  · intro e cards hc
    obtain ⟨a, t, rfl⟩ : ∃ a t, cards = a :: t := by
      cases cards with
      | nil => exact absurd rfl hc
      | cons a t => exact ⟨a, t, rfl⟩
    exact ⟨rfl, rfl⟩
  · intro e
    exact ⟨rfl, rfl⟩

/-- Concrete instantiation of the amended `run_manual_check` failure
contract at the unreachable environment and at a raising notifier. -/
theorem run_manual_check_failure_spec_witness :
    (run_manual_check_pipeline (fun _ => 7200) 0 0 unreachableEnv 0 0
        (fun _ => .ok true)).1.due_cards_count = some 0 ∧
    (run_manual_check 0 0 (.ok [sampleCard]) (fun _ => Except.error "SNS down")).1.success =
      false ∧
    (run_manual_check 0 0 (Except.error "boom") (fun _ => .ok true)).1.error = some "boom" :=
  ⟨((run_manual_check_failure_spec (fun _ => 7200) 0 0 0 0 unreachableEnv
      (fun _ => .ok true)).1 rfl).2.2,
   ((run_manual_check_failure_spec (fun _ => 7200) 0 0 0 0 unreachableEnv
      (fun _ => .ok true)).2.1 "SNS down" [sampleCard] (by simp)).1,
   ((run_manual_check_failure_spec (fun _ => 7200) 0 0 0 0 unreachableEnv
      (fun _ => .ok true)).2.2 "boom").2⟩

/-- C9: every per-card summary `run_manual_check` ever produces has
`hours_until_due = None`: the summary reads the `hoursUntilDue` key, but
the pipeline only ever sets `boardId`/`listId`/`listTitle` (in
`get_cards_from_board`) and `boardTitle`/`dueAtParsed` (in
`get_due_cards`), so the key is never present. -/
theorem hours_until_due_always_none (t0 t1 : Int) (due : Except String (List DueCard))
    (send : List DueCard → Except String Bool) (l : List CardSummary) (s : CardSummary) :
    (run_manual_check t0 t1 due send).1.due_cards = some l → s ∈ l →
      s.hours_until_due = none := by
  intro hdc hmem
  have hl : ∃ cards : List DueCard, l = cards.map summarize := by
    cases due with
    | error e =>
      rw [rmc_error] at hdc
      exact absurd hdc (by simp [failResult])
    | ok cards =>
      cases cards with
      | nil =>
        rw [rmc_empty] at hdc
        simp only [Option.some_inj] at hdc
        exact ⟨[], hdc.symm⟩
      | cons a t =>
        cases hs : send (a :: t) with
        | error e =>
          rw [rmc_send_error t0 t1 a t e send hs] at hdc
          exact absurd hdc (by simp [failResult])
        | ok b =>
          rw [rmc_send_ok t0 t1 a t b send hs] at hdc
          simp only [Option.some_inj] at hdc
          exact ⟨a :: t, hdc.symm⟩
  obtain ⟨cards, rfl⟩ := hl
  obtain ⟨c, _, rfl⟩ := List.mem_map.mp hmem
  rfl

/-- Concrete instantiation: a run over one due card produces a summary
list whose single entry has no hours-until-due value. -/
theorem hours_until_due_always_none_witness :
    (run_manual_check 0 0 (.ok [sampleCard]) (fun _ => .ok true)).1.due_cards =
      some [summarize sampleCard] ∧
    (summarize sampleCard).hours_until_due = none :=
  ⟨rfl,
   hours_until_due_always_none 0 0 (.ok [sampleCard]) (fun _ => .ok true)
     [summarize sampleCard] (summarize sampleCard) rfl (by simp)⟩

/-- C10: in a run without an internal exception (the due-card fetch
returned a value), `notification_sent = true` implies
`due_cards_count > 0`; and on an empty due-card set no
`send_notification` call is attempted and the result is
`success = true`, `notification_sent = false`. -/
theorem notification_sent_implies_due (t0 t1 : Int) (cards : List DueCard)
    (send : List DueCard → Except String Bool) :
    ((run_manual_check t0 t1 (.ok cards) send).1.notification_sent = some true →
      ∃ n, (run_manual_check t0 t1 (.ok cards) send).1.due_cards_count = some n ∧ 0 < n) ∧
    (cards = [] →
      (run_manual_check t0 t1 (.ok cards) send).1.success = true ∧
      (run_manual_check t0 t1 (.ok cards) send).1.notification_sent = some false ∧
      (run_manual_check t0 t1 (.ok cards) send).2 = 0) := by
  constructor
  · intro hn
    cases cards with
    | nil =>
      rw [rmc_empty] at hn
      exact absurd hn (by simp)
    | cons a t =>
      refine ⟨(a :: t).length, ?_, by simp⟩
      cases hs : send (a :: t) with
      | error e =>
        rw [rmc_send_error t0 t1 a t e send hs] at hn
        exact absurd hn (by simp [failResult])
      | ok b =>
        rw [rmc_send_ok t0 t1 a t b send hs]
  · rintro rfl
    exact ⟨rfl, rfl, rfl⟩

/-- Concrete instantiation of the C10 invariant: the empty-run clause at
an arbitrary notifier, and the implication at a one-card run whose
notification succeeded. -/
theorem notification_sent_implies_due_witness :
    ((run_manual_check 0 0 (.ok ([] : List DueCard)) (fun _ => .ok true)).1.success = true ∧
      (run_manual_check 0 0 (.ok ([] : List DueCard))
        (fun _ => .ok true)).1.notification_sent = some false ∧
      (run_manual_check 0 0 (.ok ([] : List DueCard)) (fun _ => .ok true)).2 = 0) ∧
    (∃ n, (run_manual_check 0 0 (.ok [sampleCard])
        (fun _ => .ok true)).1.due_cards_count = some n ∧ 0 < n) :=
  ⟨(notification_sent_implies_due 0 0 [] (fun _ => .ok true)).2 rfl,
   (notification_sent_implies_due 0 0 [sampleCard] (fun _ => .ok true)).1 rfl⟩

end Reminder
